import Mathlib

/-!
# Verification of the paratemp-scc-setup forwarding tunnel

This file gives a shallow embedding, in Lean 4, of the SSH port-forwarding
core of the `paratemp-scc-setup` repository (files `jupyter_scc.py` and
`jupyter-scc.py`) and proves or refutes the specification claims about it.

The embedding models:
* `Handler.handle` (the per-connection channel-open / relay / close logic),
  with the relay loop driven by an explicit list of select/recv events;
* `ForwardServer` (the `ThreadingTCPServer` subclass and its two class
  attributes) together with a model of its per-connection dispatch;
* `forward_tunnel` in both files (one returns the server, one calls
  `serve_forever`);
* the interrupt-time teardown sequence of `main`;
* the `found jupyter server info` log line of `main`;
* `Config.__setitem__` (write-through of the settings dictionary to disk).

Strings of bytes are modelled as `List Nat`; the contents of individual
bytes are irrelevant to every claim, only their identity and order matter.
-/

/-- A chunk of bytes as returned by one `recv` call. -/
abbrev Chunk := List Nat

/-- A network address, as returned by `getpeername()`: host and port. -/
structure Addr where
  host : String
  port : Nat
  deriving DecidableEq, Repr

/-- Rendering of an address used inside log messages (models Python `%r`
of the `(host, port)` tuple up to formatting). -/
def addrRepr (a : Addr) : String :=
  a.host ++ ":" ++ toString a.port

/-- The result of one `recv` call on a readable stream: either it returns a
chunk of bytes (possibly empty, signalling EOF), or it raises an OS error. -/
inductive ReadRes where
  | ok (c : Chunk)
  | err
  deriving DecidableEq, Repr

/-- One iteration of the relay loop's environment: what `select` reports and
what the subsequent stream operations do.

`localRead = some r` means `self.request` was in the readable set and
`self.request.recv(1024)` produced `r`; `none` means the local socket was not
readable this round.  `chanRead` is the same for `chan`.  `chanSendOk` (resp.
`localSendOk`) is `false` when `chan.send` (resp. `self.request.send`) raises
if it is called during this iteration. -/
structure RelayEvent where
  localRead : Option ReadRes
  chanRead : Option ReadRes
  chanSendOk : Bool
  localSendOk : Bool
  deriving DecidableEq, Repr

/-- How the relay loop ended: `eof` via `break` on a zero-byte read, `raised`
via an uncaught exception from `recv`/`send`, or `pending` when the supplied
event list ran out while the loop was still blocked in `select`. -/
inductive RelayExit where
  | eof
  | raised
  | pending
  deriving DecidableEq, Repr

/-- Observable I/O state of one relay: the chunks read from each stream, in
order, and the chunks successfully passed to each stream's `send`, in order. -/
structure RelayState where
  readLocal : List Chunk
  readChan : List Chunk
  sentChan : List Chunk
  sentLocal : List Chunk
  deriving DecidableEq, Repr

/-- The empty relay state, before the loop starts. -/
def RelayState.init : RelayState := ⟨[], [], [], []⟩

/-- Outcome of one half of a loop iteration: either the loop is done (break
or exception) with a final state, or it continues with an updated state. -/
inductive PhaseOut where
  | done (st : RelayState) (ex : RelayExit)
  | cont (st : RelayState)
  deriving DecidableEq, Repr

namespace JupyterScc

/-- The `if self.request in r:` block of the relay loop in
`jupyter_scc.py` `Handler.handle`: read from the local socket; a zero-byte
read breaks the loop; otherwise the data is sent to `chan` (which may
raise). -/
def localPhase (e : RelayEvent) (st : RelayState) : PhaseOut :=
  match e.localRead with
  | none => .cont st
  | some .err => .done st .raised
  | some (.ok c) =>
    if c = [] then
      .done { st with readLocal := st.readLocal ++ [c] } .eof
    else
      let st1 := { st with readLocal := st.readLocal ++ [c] }
      if e.chanSendOk then
        .cont { st1 with sentChan := st1.sentChan ++ [c] }
      else
        .done st1 .raised

/-- The `if chan in r:` block of the relay loop in `jupyter_scc.py`
`Handler.handle`: read from the SSH channel; a zero-byte read breaks the
loop; otherwise the data is sent to the local socket (which may raise). -/
def chanPhase (e : RelayEvent) (st : RelayState) : PhaseOut :=
  match e.chanRead with
  | none => .cont st
  | some .err => .done st .raised
  | some (.ok c) =>
    if c = [] then
      .done { st with readChan := st.readChan ++ [c] } .eof
    else
      let st1 := { st with readChan := st.readChan ++ [c] }
      if e.localSendOk then
        .cont { st1 with sentLocal := st1.sentLocal ++ [c] }
      else
        .done st1 .raised

/-- The `while True:` relay loop of `jupyter_scc.py` `Handler.handle`: each
iteration waits in `select`, then runs the local-socket block and, if that
did not break or raise, the channel block. -/
def relayLoop : List RelayEvent → RelayState → RelayState × RelayExit
  | [], st => (st, .pending)
  | e :: rest, st =>
    match localPhase e st with
    | .done st2 ex => (st2, ex)
    | .cont st1 =>
      match chanPhase e st1 with
      | .done st2 ex => (st2, ex)
      | .cont st2 => relayLoop rest st2

end JupyterScc

/-- Result of `transport.open_channel("direct-tcpip", ...)`: it raises, or
returns `None` (rejected), or returns a live channel. -/
inductive OpenRes where
  | raises (msg : String)
  | rejected
  | opened
  deriving DecidableEq, Repr

/-- The environment of one `Handler.handle` invocation: the class attributes
`chain_host`/`chain_port` injected by `forward_tunnel`, the two peer
addresses, the outcome of the `open_channel` call, and the event schedule of
the relay loop. -/
structure HandleInput where
  chainHost : String
  chainPort : Nat
  peer : Addr
  chanPeer : Addr
  openRes : OpenRes
  events : List RelayEvent
  deriving DecidableEq, Repr

/-- How a `Handler.handle` invocation ended. -/
inductive HandleExit where
  | openFailed
  | rejectedByServer
  | relayEof
  | relayRaised
  | stillBlocked
  deriving DecidableEq, Repr

/-- Everything observable about one `Handler.handle` invocation: the log
messages it emitted, the relay I/O, how many times it closed each stream,
and how it ended (`relayRaised` means an exception escaped `handle`). -/
structure HandleResult where
  logs : List String
  readLocal : List Chunk
  readChan : List Chunk
  sentChan : List Chunk
  sentLocal : List Chunk
  chanCloses : Nat
  localCloses : Nat
  exit : HandleExit
  deriving DecidableEq, Repr

/-- The log message of the `except Exception` branch of the `open_channel`
call: `"Incoming request to %s:%d failed: %s" % (chain_host, chain_port,
repr(e))`. -/
def openFailLog (host : String) (port : Nat) (msg : String) : String :=
  "Incoming request to " ++ host ++ ":" ++ toString port ++ " failed: " ++ msg

/-- The log message of the `chan is None` branch: `"Incoming request to
%s:%d was rejected by the SSH server." % (chain_host, chain_port)`. -/
def rejectLog (host : String) (port : Nat) : String :=
  "Incoming request to " ++ host ++ ":" ++ toString port ++
    " was rejected by the SSH server."

/-- The `"Connected!  Tunnel open %r -> %r -> %r"` log message. -/
def connectedLog (peer chanPeer : Addr) (host : String) (port : Nat) : String :=
  "Connected!  Tunnel open " ++ addrRepr peer ++ " -> " ++ addrRepr chanPeer ++
    " -> " ++ addrRepr ⟨host, port⟩

/-- The `"Tunnel closed from %r"` log message. -/
def closedLog (peer : Addr) : String :=
  "Tunnel closed from " ++ addrRepr peer

namespace JupyterScc

/-- `Handler.handle` of `jupyter_scc.py` (lines 115-159): open the channel
(logging and returning on exception or `None`), log the tunnel-open event,
run the relay loop, and on the `break` (EOF) path close `chan` then
`self.request` and log the tunnel-closed event.  Nothing is closed on the
exception path: the `while` loop is not wrapped in `try`, so an error from
`recv`/`send` propagates out of `handle` before the `close()` calls. -/
def handle (i : HandleInput) : HandleResult :=
  match i.openRes with
  | .raises msg =>
    { logs := [openFailLog i.chainHost i.chainPort msg]
      readLocal := [], readChan := [], sentChan := [], sentLocal := []
      chanCloses := 0, localCloses := 0, exit := .openFailed }
  | .rejected =>
    { logs := [rejectLog i.chainHost i.chainPort]
      readLocal := [], readChan := [], sentChan := [], sentLocal := []
      chanCloses := 0, localCloses := 0, exit := .rejectedByServer }
  | .opened =>
    let conn := connectedLog i.peer i.chanPeer i.chainHost i.chainPort
    let r := relayLoop i.events RelayState.init
    match r.2 with
    | .eof =>
      { logs := [conn, closedLog i.peer]
        readLocal := r.1.readLocal, readChan := r.1.readChan
        sentChan := r.1.sentChan, sentLocal := r.1.sentLocal
        chanCloses := 1, localCloses := 1, exit := .relayEof }
    | .raised =>
      { logs := [conn]
        readLocal := r.1.readLocal, readChan := r.1.readChan
        sentChan := r.1.sentChan, sentLocal := r.1.sentLocal
        chanCloses := 0, localCloses := 0, exit := .relayRaised }
    | .pending =>
      { logs := [conn]
        readLocal := r.1.readLocal, readChan := r.1.readChan
        sentChan := r.1.sentChan, sentLocal := r.1.sentLocal
        chanCloses := 0, localCloses := 0, exit := .stillBlocked }

end JupyterScc

namespace JupyterSccDash

/-- The `if self.request in r:` block of the relay loop in `jupyter-scc.py`
`Handler.handle` (the hyphenated file), transcribed from that file's own
lines 135-139. -/
def localPhase (e : RelayEvent) (st : RelayState) : PhaseOut :=
  match e.localRead with
  | none => .cont st
  | some .err => .done st .raised
  | some (.ok c) =>
    if c = [] then
      .done { st with readLocal := st.readLocal ++ [c] } .eof
    else
      let st1 := { st with readLocal := st.readLocal ++ [c] }
      if e.chanSendOk then
        .cont { st1 with sentChan := st1.sentChan ++ [c] }
      else
        .done st1 .raised

/-- The `if chan in r:` block of the relay loop in `jupyter-scc.py`
`Handler.handle`, transcribed from that file's own lines 140-144. -/
def chanPhase (e : RelayEvent) (st : RelayState) : PhaseOut :=
  match e.chanRead with
  | none => .cont st
  | some .err => .done st .raised
  | some (.ok c) =>
    if c = [] then
      .done { st with readChan := st.readChan ++ [c] } .eof
    else
      let st1 := { st with readChan := st.readChan ++ [c] }
      if e.localSendOk then
        .cont { st1 with sentLocal := st1.sentLocal ++ [c] }
      else
        .done st1 .raised

/-- The `while True:` relay loop of `jupyter-scc.py` `Handler.handle`
(lines 133-144 of that file). -/
def relayLoop : List RelayEvent → RelayState → RelayState × RelayExit
  | [], st => (st, .pending)
  | e :: rest, st =>
    match localPhase e st with
    | .done st2 ex => (st2, ex)
    | .cont st1 =>
      match chanPhase e st1 with
      | .done st2 ex => (st2, ex)
      | .cont st2 => relayLoop rest st2

/-- `Handler.handle` of `jupyter-scc.py` (lines 105-149 of that file),
transcribed independently of the `jupyter_scc.py` copy. -/
def handle (i : HandleInput) : HandleResult :=
  match i.openRes with
  | .raises msg =>
    { logs := [openFailLog i.chainHost i.chainPort msg]
      readLocal := [], readChan := [], sentChan := [], sentLocal := []
      chanCloses := 0, localCloses := 0, exit := .openFailed }
  | .rejected =>
    { logs := [rejectLog i.chainHost i.chainPort]
      readLocal := [], readChan := [], sentChan := [], sentLocal := []
      chanCloses := 0, localCloses := 0, exit := .rejectedByServer }
  | .opened =>
    let conn := connectedLog i.peer i.chanPeer i.chainHost i.chainPort
    let r := relayLoop i.events RelayState.init
    match r.2 with
    | .eof =>
      { logs := [conn, closedLog i.peer]
        readLocal := r.1.readLocal, readChan := r.1.readChan
        sentChan := r.1.sentChan, sentLocal := r.1.sentLocal
        chanCloses := 1, localCloses := 1, exit := .relayEof }
    | .raised =>
      { logs := [conn]
        readLocal := r.1.readLocal, readChan := r.1.readChan
        sentChan := r.1.sentChan, sentLocal := r.1.sentLocal
        chanCloses := 0, localCloses := 0, exit := .relayRaised }
    | .pending =>
      { logs := [conn]
        readLocal := r.1.readLocal, readChan := r.1.readChan
        sentChan := r.1.sentChan, sentLocal := r.1.sentLocal
        chanCloses := 0, localCloses := 0, exit := .stillBlocked }

end JupyterSccDash

/-! ## The Tunnel Server and `forward_tunnel` -/

/-- The two class attributes set on `ForwardServer` in both files:
`daemon_threads = True` and `allow_reuse_address = True`. -/
structure ServerFlags where
  daemon_threads : Bool
  allow_reuse_address : Bool
  deriving DecidableEq, Repr

/-- The `ForwardServer` class of `jupyter_scc.py` (lines 109-111): a
`socketserver.ThreadingTCPServer` with both flags set to `True`. -/
def ForwardServer : ServerFlags :=
  { daemon_threads := true, allow_reuse_address := true }

/-- The `ForwardServer` class of `jupyter-scc.py` (lines 99-101 of that
file), transcribed independently. -/
def ForwardServerDash : ServerFlags :=
  { daemon_threads := true, allow_reuse_address := true }

/-- The configuration of a constructed `ForwardServer(("", local_port),
SubHander)`: the bind address, and the values `forward_tunnel` injects into
the throwaway `SubHander` subclass (`chain_host`, `chain_port`,
`ssh_transport`).  Transports are identified by an opaque tag. -/
structure ServerSpec where
  bindHost : String
  bindPort : Nat
  chain_host : String
  chain_port : Nat
  ssh_transport : Nat
  flags : ServerFlags
  deriving DecidableEq, Repr

/-- The observable behaviour of a `forward_tunnel` call: either it
constructs a server and returns it to the caller, or it constructs a server
and blocks inside `serve_forever()` without returning a handle. -/
inductive TunnelCall where
  | returnsServer (s : ServerSpec)
  | blocksInServeForever (s : ServerSpec)
  deriving DecidableEq, Repr

/-- Whether a `forward_tunnel` call returns a server handle to its caller. -/
def TunnelCall.returnsHandle : TunnelCall → Bool
  | .returnsServer _ => true
  | .blocksInServeForever _ => false

/-- `forward_tunnel` of `jupyter_scc.py` (lines 162-172): builds the
`SubHander` class around the arguments and returns
`ForwardServer(("", local_port), SubHander)` without serving. -/
def forward_tunnel (local_port : Nat) (remote_host : String)
    (remote_port : Nat) (transport : Nat) : TunnelCall :=
  .returnsServer
    { bindHost := "", bindPort := local_port, chain_host := remote_host
      chain_port := remote_port, ssh_transport := transport
      flags := ForwardServer }

/-- `forward_tunnel` of `jupyter-scc.py` (lines 152-161 of that file):
builds the same server but calls `.serve_forever()` on it directly, never
returning a handle. -/
def forward_tunnel_dash (local_port : Nat) (remote_host : String)
    (remote_port : Nat) (transport : Nat) : TunnelCall :=
  .blocksInServeForever
    { bindHost := "", bindPort := local_port, chain_host := remote_host
      chain_port := remote_port, ssh_transport := transport
      flags := ForwardServerDash }

/-- One per-connection worker thread spawned by the server: its `daemon`
flag and the result of running the handler. -/
structure Worker where
  daemon : Bool
  result : HandleResult
  deriving DecidableEq, Repr

/-- Modelled from the spec: `socketserver.ThreadingTCPServer` (not part of
this repository) dispatches every accepted connection to a fresh thread
whose `daemon` flag is the server's `daemon_threads` attribute; a handler
exception is caught by the server's error hook and does not stop the accept
loop, so every connection is processed independently. -/
def serveConnections (flags : ServerFlags) (conns : List HandleInput) :
    List Worker :=
  conns.map fun c => { daemon := flags.daemon_threads, result := JupyterScc.handle c }

/-- Modelled from the spec: `socketserver.TCPServer.server_bind` (not part
of this repository) sets `SO_REUSEADDR` on the listening socket exactly when
the class attribute `allow_reuse_address` is true. -/
def listeningSocketReuseEnabled (flags : ServerFlags) : Bool :=
  flags.allow_reuse_address

/-! ## The lifecycle steps of `main` in `jupyter_scc.py` -/

/-- The thread-start and teardown operations `main` performs, in the order
they appear in the source. -/
inductive MainOp where
  | forwardTunnelCall (local_port : Nat) (remote_host : String) (remote_port : Nat)
  | threadCreateServeForever
  | threadStart
  | browserOpen
  | signalPause
  | tunnelShutdown
  | clientClose
  | threadJoin
  | sysExit (code : Nat)
  deriving DecidableEq, Repr

/-- The forwarding-startup part of `main`'s `try` block (`jupyter_scc.py`
lines 290-303): call `forward_tunnel(11111, "localhost", remote_port,
client.get_transport())`, create a `threading.Thread` whose target is
`tunnel.serve_forever`, start it, open the browser, then block in
`signal.pause()`. -/
def mainStartSequence (remote_port : Nat) : List MainOp :=
  [ .forwardTunnelCall 11111 "localhost" remote_port
  , .threadCreateServeForever
  , .threadStart
  , .browserOpen
  , .signalPause ]

/-- The `except KeyboardInterrupt` teardown of `main` (`jupyter_scc.py`
lines 304-309): `tunnel.shutdown()`, then `client.close()`, then
`thread.join()`, then `sys.exit(0)`. -/
def mainInterruptSequence : List MainOp :=
  [ .tunnelShutdown, .clientClose, .threadJoin, .sysExit 0 ]

/-- Position of the first occurrence of an operation in a sequence of
`main` steps. -/
def opIndex (o : MainOp) (seq : List MainOp) : Nat :=
  seq.findIdx (fun x => x = o)

/-! ## The `found jupyter server info` log line of `main` -/

/-- The capture groups of the match object `m` produced by
`re.search(r"http(s)?://.*?:(\d+)/(?:\?token=(\w+))?", line)` in `main`:
group 1 (the optional `s` of `https`), group 2 (the port digits) and
group 3 (the optional token). -/
structure MatchGroups where
  g1 : Option String
  g2 : String
  g3 : Option String
  deriving DecidableEq, Repr

/-- The `'found jupyter server info: port: {}   token: {}'` format template
of `jupyter_scc.py` line 285, applied to its two positional arguments. -/
def foundInfoTemplate (a b : String) : String :=
  "found jupyter server info: port: " ++ a ++ "   token: " ++ b

/-- The actual call of `jupyter_scc.py` lines 285-286: the template is
formatted with `m.group(2)` for BOTH fields: `.format(m.group(2),
m.group(2))`. -/
def mainFoundInfoLog (m : MatchGroups) : String :=
  foundInfoTemplate m.g2 m.g2

/-! ## `Config.__setitem__` -/

/-- A JSON-representable config value (the repository stores strings and
booleans; numbers are included for generality). -/
inductive CVal where
  | s (v : String)
  | b (v : Bool)
  | n (v : Nat)
  deriving DecidableEq, Repr

/-- A dictionary as an association list without duplicate keys; `dictInsert`
is `dict.__setitem__`: replace the value at an existing key, else append. -/
def dictInsert (k : String) (v : CVal) :
    List (String × CVal) → List (String × CVal)
  | [] => [(k, v)]
  | (k2, v2) :: rest =>
    if k2 = k then (k, v) :: rest else (k2, v2) :: dictInsert k v rest

/-- The state a `Config` object can observe and mutate: the in-memory
mapping (the `dict` contents of `self`), the parsed contents of the settings
file at `self.path` (`none`: absent), and of the temporary file at
`self.temp_path`. -/
structure ConfigState where
  mem : List (String × CVal)
  diskMain : Option (List (String × CVal))
  diskTemp : Option (List (String × CVal))
  deriving DecidableEq, Repr

/-- Which filesystem step of `Config.__setitem__` fails, if any:
`json.dump` to the temporary file, or the `rename` over the settings
path. -/
inductive FsMode where
  | ok
  | dumpFails
  | renameFails
  deriving DecidableEq, Repr

/-- The log message emitted by the `except` branch of
`Config.__setitem__`. -/
def configWriteErrLog : String :=
  "Exception raised when trying to write config file!"

/-- The outcome of one `Config.__setitem__` call: the intermediate states
after each completed statement (in order), the final state, whether the
exception was re-raised to the caller, and the log messages emitted. -/
structure SetItemOutcome where
  trace : List ConfigState
  final : ConfigState
  raised : Bool
  logs : List String
  deriving DecidableEq, Repr

/-- `Config.__setitem__` of `jupyter_scc.py` (lines 95-102, identical in
`jupyter-scc.py` lines 85-92): inside a `try`, first
`super().__setitem__(key, value)` updates the in-memory dict, then
`json.dump(self, self.temp_path.open("w"), indent=4)` writes the whole
mapping to the temporary file, then `self.temp_path.rename(self.path)`
moves it over the settings file in one step; any exception is logged and
re-raised. -/
def configSetItem (st : ConfigState) (k : String) (v : CVal) (w : FsMode) :
    SetItemOutcome :=
  let s1 : ConfigState := { st with mem := dictInsert k v st.mem }
  match w with
  | .dumpFails =>
    { trace := [s1], final := s1, raised := true, logs := [configWriteErrLog] }
  | .renameFails =>
    let s2 : ConfigState := { s1 with diskTemp := some s1.mem }
    { trace := [s1, s2], final := s2, raised := true
      logs := [configWriteErrLog] }
  | .ok =>
    let s2 : ConfigState := { s1 with diskTemp := some s1.mem }
    let s3 : ConfigState := { s2 with diskMain := some s1.mem, diskTemp := none }
    { trace := [s1, s2, s3], final := s3, raised := false, logs := [] }

/-! ## Auxiliary predicates on relay events -/

/-- An event in which no stream operation fails: reads do not raise and any
`send` performed succeeds. -/
def RelayEvent.errFree (e : RelayEvent) : Prop :=
  e.localRead ≠ some .err ∧ e.chanRead ≠ some .err ∧
    e.chanSendOk = true ∧ e.localSendOk = true

instance (e : RelayEvent) : Decidable e.errFree := by
  unfold RelayEvent.errFree; infer_instance

/-- Every chunk an event's `recv(1024)` calls return has at most 1024
bytes (the guarantee `recv` gives for its buffer-size argument). -/
def RelayEvent.boundedReads (e : RelayEvent) : Prop :=
  (∀ c, e.localRead = some (.ok c) → c.length ≤ 1024) ∧
    (∀ c, e.chanRead = some (.ok c) → c.length ≤ 1024)

/-- Whether a character list occurs contiguously inside another. -/
def charsContain (pat s : List Char) : Bool :=
  s.tails.any fun t => pat.isPrefixOf t

/-- Whether the string `pat` occurs as a substring of `s`. -/
def strContains (pat s : String) : Bool :=
  charsContain pat.data s.data

/-- Boolean check that one `recv` result stays within 1024 bytes. -/
def readOkWithin (r : Option ReadRes) : Bool :=
  match r with
  | some (.ok c) => decide (c.length ≤ 1024)
  | _ => true

/-! ## Invariants of the relay loop -/

/-- The state a phase outcome carries, whether done or continuing. -/
def PhaseOut.state : PhaseOut → RelayState
  | .done st _ => st
  | .cont st => st

/-- The bytes successfully sent to each stream are exactly the bytes read
from the opposite stream, in order. -/
def joinInv (st : RelayState) : Prop :=
  st.sentChan.flatten = st.readLocal.flatten ∧
    st.sentLocal.flatten = st.readChan.flatten

/-- Every chunk sent so far has at most 1024 bytes. -/
def sentBound (st : RelayState) : Prop :=
  (∀ c ∈ st.sentChan, c.length ≤ 1024) ∧ ∀ c ∈ st.sentLocal, c.length ≤ 1024

/-- No zero-byte read has been recorded yet. -/
def noEmptyRead (st : RelayState) : Prop :=
  [] ∉ st.readLocal ∧ [] ∉ st.readChan

/-! ## Concrete example inputs used in witnesses and counterexamples -/

/-- An established relay that transfers one chunk each way and then sees a
local EOF: used to witness the round-trip claims. -/
def iRelayEx : HandleInput :=
  { chainHost := "localhost", chainPort := 8888
    peer := ⟨"127.0.0.1", 54321⟩, chanPeer := ⟨"localhost", 22⟩
    openRes := .opened
    events := [ ⟨some (.ok [10, 20]), some (.ok [30]), true, true⟩
              , ⟨some (.ok []), none, true, true⟩ ] }

/-- An established relay in which the first local `recv` raises. -/
def iReadErrEx : HandleInput :=
  { chainHost := "localhost", chainPort := 8888
    peer := ⟨"127.0.0.1", 54321⟩, chanPeer := ⟨"localhost", 22⟩
    openRes := .opened
    events := [⟨some .err, none, true, true⟩] }

/-- An established relay that sees a zero-byte read on the SSH channel after
one successful transfer. -/
def iChanEofEx : HandleInput :=
  { chainHost := "localhost", chainPort := 8888
    peer := ⟨"127.0.0.1", 54321⟩, chanPeer := ⟨"localhost", 22⟩
    openRes := .opened
    events := [ ⟨some (.ok [5]), none, true, true⟩
              , ⟨none, some (.ok []), true, true⟩ ] }

/-- A relay that ends with a local EOF immediately. -/
def iLocalEofEx : HandleInput :=
  { chainHost := "localhost", chainPort := 8888
    peer := ⟨"127.0.0.1", 54321⟩, chanPeer := ⟨"localhost", 22⟩
    openRes := .opened
    events := [⟨some (.ok []), none, true, true⟩] }

/-- A connection on which `open_channel` raises an `SSHException`. -/
def iOpenFailEx : HandleInput :=
  { chainHost := "localhost", chainPort := 8888
    peer := ⟨"10.0.0.5", 50000⟩, chanPeer := ⟨"localhost", 22⟩
    openRes := .raises "SSHException"
    events := [] }

/-- A config state holding a typical settings mapping. -/
def cfgEx : ConfigState :=
  { mem := [("username", .s "alice"), ("Setup_on_SCC", .b false)]
    diskMain := some [("username", .s "alice"), ("Setup_on_SCC", .b false)]
    diskTemp := none }

lemma readOkWithin_iff (r : Option ReadRes) :
    readOkWithin r = true ↔ ∀ c, r = some (.ok c) → c.length ≤ 1024 := by
  cases r with
  | none => simp [readOkWithin]
  | some rr =>
    cases rr with
    | ok c => simp [readOkWithin]
    | err => simp [readOkWithin]

instance (e : RelayEvent) : Decidable e.boundedReads :=
  decidable_of_iff _
    (and_congr (readOkWithin_iff e.localRead) (readOkWithin_iff e.chanRead))

namespace JupyterScc

lemma localPhase_joinInv (e : RelayEvent) (st : RelayState) (he : e.errFree)
    (h : joinInv st) : joinInv (localPhase e st).state := by
  obtain ⟨-, -, h3, -⟩ := he
  cases hl : e.localRead with
  | none => simpa [localPhase, hl, PhaseOut.state] using h
  | some rr =>
    cases rr with
    | err => simpa [localPhase, hl, PhaseOut.state] using h
    | ok c =>
      by_cases hc : c = []
      · subst hc
        obtain ⟨ha, hb⟩ := h
        simp [localPhase, hl, PhaseOut.state, joinInv, ha, hb]
      · obtain ⟨ha, hb⟩ := h
        simp [localPhase, hl, hc, h3, PhaseOut.state, joinInv, ha, hb]

lemma chanPhase_joinInv (e : RelayEvent) (st : RelayState) (he : e.errFree)
    (h : joinInv st) : joinInv (chanPhase e st).state := by
  obtain ⟨-, -, -, h4⟩ := he
  cases hl : e.chanRead with
  | none => simpa [chanPhase, hl, PhaseOut.state] using h
  | some rr =>
    cases rr with
    | err => simpa [chanPhase, hl, PhaseOut.state] using h
    | ok c =>
      by_cases hc : c = []
      · subst hc
        obtain ⟨ha, hb⟩ := h
        simp [chanPhase, hl, PhaseOut.state, joinInv, ha, hb]
      · obtain ⟨ha, hb⟩ := h
        simp [chanPhase, hl, hc, h4, PhaseOut.state, joinInv, ha, hb]

lemma relayLoop_joinInv :
    ∀ (evs : List RelayEvent) (st : RelayState),
      (∀ e ∈ evs, e.errFree) → joinInv st → joinInv (relayLoop evs st).1 := by
  intro evs
  induction evs with
  | nil => intro st _ h; simpa [relayLoop] using h
  | cons e rest ih =>
    intro st hall h
    have he : e.errFree := hall e (by simp)
    have h1 := localPhase_joinInv e st he h
    simp only [relayLoop]
    cases hl : localPhase e st with
    | done st2 ex => rw [hl] at h1; exact h1
    | cont st1 =>
      rw [hl] at h1
      have h2 := chanPhase_joinInv e st1 he h1
      dsimp only
      cases hc : chanPhase e st1 with
      | done st2 ex => rw [hc] at h2; exact h2
      | cont st2 =>
        rw [hc] at h2
        dsimp only
        exact ih st2 (fun x hx => hall x (by simp [hx])) h2

lemma localPhase_sentBound (e : RelayEvent) (st : RelayState)
    (hb : e.boundedReads) (h : sentBound st) :
    sentBound (localPhase e st).state := by
  obtain ⟨hb1, -⟩ := hb
  cases hl : e.localRead with
  | none => simpa [localPhase, hl, PhaseOut.state] using h
  | some rr =>
    cases rr with
    | err => simpa [localPhase, hl, PhaseOut.state] using h
    | ok c =>
      have hc1024 : c.length ≤ 1024 := hb1 c hl
      obtain ⟨ha, hb'⟩ := h
      by_cases hc : c = []
      · subst hc
        simp [localPhase, hl, PhaseOut.state, sentBound]
        exact ⟨ha, hb'⟩
      · cases hsend : e.chanSendOk with
        | true =>
          simp only [localPhase, hl, hc, hsend, if_false, if_true, PhaseOut.state]
          refine ⟨fun x hx => ?_, hb'⟩
          rcases List.mem_append.mp hx with hx' | hx'
          · exact ha x hx'
          · simp at hx'; subst hx'; exact hc1024
        | false =>
          simp [localPhase, hl, hc, hsend, PhaseOut.state, sentBound]
          exact ⟨ha, hb'⟩

lemma chanPhase_sentBound (e : RelayEvent) (st : RelayState)
    (hb : e.boundedReads) (h : sentBound st) :
    sentBound (chanPhase e st).state := by
  obtain ⟨-, hb2⟩ := hb
  cases hl : e.chanRead with
  | none => simpa [chanPhase, hl, PhaseOut.state] using h
  | some rr =>
    cases rr with
    | err => simpa [chanPhase, hl, PhaseOut.state] using h
    | ok c =>
      have hc1024 : c.length ≤ 1024 := hb2 c hl
      obtain ⟨ha, hb'⟩ := h
      by_cases hc : c = []
      · subst hc
        simp [chanPhase, hl, PhaseOut.state, sentBound]
        exact ⟨ha, hb'⟩
      · cases hsend : e.localSendOk with
        | true =>
          simp only [chanPhase, hl, hc, hsend, if_false, if_true, PhaseOut.state]
          refine ⟨ha, fun x hx => ?_⟩
          rcases List.mem_append.mp hx with hx' | hx'
          · exact hb' x hx'
          · simp at hx'; subst hx'; exact hc1024
        | false =>
          simp [chanPhase, hl, hc, hsend, PhaseOut.state, sentBound]
          exact ⟨ha, hb'⟩

lemma relayLoop_sentBound :
    ∀ (evs : List RelayEvent) (st : RelayState),
      (∀ e ∈ evs, e.boundedReads) → sentBound st → sentBound (relayLoop evs st).1 := by
  intro evs
  induction evs with
  | nil => intro st _ h; simpa [relayLoop] using h
  | cons e rest ih =>
    intro st hall h
    have he : e.boundedReads := hall e (by simp)
    have h1 := localPhase_sentBound e st he h
    simp only [relayLoop]
    cases hl : localPhase e st with
    | done st2 ex => rw [hl] at h1; exact h1
    | cont st1 =>
      rw [hl] at h1
      have h2 := chanPhase_sentBound e st1 he h1
      dsimp only
      cases hc : chanPhase e st1 with
      | done st2 ex => rw [hc] at h2; exact h2
      | cont st2 =>
        rw [hc] at h2
        dsimp only
        exact ih st2 (fun x hx => hall x (by simp [hx])) h2

end JupyterScc


namespace JupyterScc

lemma localPhase_cont_noEmpty (e : RelayEvent) (st st' : RelayState)
    (h : localPhase e st = .cont st') (hne : noEmptyRead st) : noEmptyRead st' := by
  cases hl : e.localRead with
  | none =>
    simp [localPhase, hl] at h
    simpa [← h] using hne
  | some rr =>
    cases rr with
    | err => simp [localPhase, hl] at h
    | ok c =>
      by_cases hc : c = []
      · simp [localPhase, hl, hc] at h
      · cases hsend : e.chanSendOk with
        | true =>
          simp [localPhase, hl, hc, hsend] at h
          obtain ⟨h1, h2⟩ := hne
          subst h
          refine ⟨?_, h2⟩
          simp [List.mem_append, h1, hc]
        | false => simp [localPhase, hl, hc, hsend] at h

lemma localPhase_done_noEmpty (e : RelayEvent) (st st' : RelayState)
    (ex : RelayExit) (h : localPhase e st = .done st' ex) (hex : ex ≠ .eof)
    (hne : noEmptyRead st) : noEmptyRead st' := by
  cases hl : e.localRead with
  | none => simp [localPhase, hl] at h
  | some rr =>
    cases rr with
    | err =>
      simp [localPhase, hl] at h
      simpa [← h.1] using hne
    | ok c =>
      by_cases hc : c = []
      · simp [localPhase, hl, hc] at h
        exact absurd h.2.symm hex
      · cases hsend : e.chanSendOk with
        | true => simp [localPhase, hl, hc, hsend] at h
        | false =>
          simp [localPhase, hl, hc, hsend] at h
          obtain ⟨h1, h2⟩ := hne
          rw [← h.1]
          refine ⟨?_, h2⟩
          simp [List.mem_append, h1, hc]

lemma chanPhase_cont_noEmpty (e : RelayEvent) (st st' : RelayState)
    (h : chanPhase e st = .cont st') (hne : noEmptyRead st) : noEmptyRead st' := by
  cases hl : e.chanRead with
  | none =>
    simp [chanPhase, hl] at h
    simpa [← h] using hne
  | some rr =>
    cases rr with
    | err => simp [chanPhase, hl] at h
    | ok c =>
      by_cases hc : c = []
      · simp [chanPhase, hl, hc] at h
      · cases hsend : e.localSendOk with
        | true =>
          simp [chanPhase, hl, hc, hsend] at h
          obtain ⟨h1, h2⟩ := hne
          subst h
          refine ⟨h1, ?_⟩
          simp [List.mem_append, h2, hc]
        | false => simp [chanPhase, hl, hc, hsend] at h

lemma chanPhase_done_noEmpty (e : RelayEvent) (st st' : RelayState)
    (ex : RelayExit) (h : chanPhase e st = .done st' ex) (hex : ex ≠ .eof)
    (hne : noEmptyRead st) : noEmptyRead st' := by
  cases hl : e.chanRead with
  | none => simp [chanPhase, hl] at h
  | some rr =>
    cases rr with
    | err =>
      simp [chanPhase, hl] at h
      simpa [← h.1] using hne
    | ok c =>
      by_cases hc : c = []
      · simp [chanPhase, hl, hc] at h
        exact absurd h.2.symm hex
      · cases hsend : e.localSendOk with
        | true => simp [chanPhase, hl, hc, hsend] at h
        | false =>
          simp [chanPhase, hl, hc, hsend] at h
          obtain ⟨h1, h2⟩ := hne
          rw [← h.1]
          refine ⟨h1, ?_⟩
          simp [List.mem_append, h2, hc]

lemma relayLoop_noEmpty :
    ∀ (evs : List RelayEvent) (st : RelayState), noEmptyRead st →
      (relayLoop evs st).2 ≠ .eof → noEmptyRead (relayLoop evs st).1 := by
  intro evs
  induction evs with
  | nil => intro st h _; simpa [relayLoop] using h
  | cons e rest ih =>
    intro st hne hex
    simp only [relayLoop] at hex ⊢
    cases hl : localPhase e st with
    | done st2 ex =>
      rw [hl] at hex
      dsimp only at hex ⊢
      exact localPhase_done_noEmpty e st st2 ex hl hex hne
    | cont st1 =>
      rw [hl] at hex
      dsimp only at hex ⊢
      have hne1 := localPhase_cont_noEmpty e st st1 hl hne
      cases hc : chanPhase e st1 with
      | done st2 ex =>
        rw [hc] at hex
        dsimp only at hex ⊢
        exact chanPhase_done_noEmpty e st1 st2 ex hc hex hne1
      | cont st2 =>
        rw [hc] at hex
        dsimp only at hex ⊢
        exact ih st2 (chanPhase_cont_noEmpty e st1 st2 hc hne1) hex

end JupyterScc

/-! ## Claim theorems -/

/-- Claim C1: for every byte sequence delivered on one side of an
established relay (the relay events are error-free and each `recv(1024)`
returns at most 1024 bytes), `Handler.handle` forwards exactly the bytes it
read, unmodified and in order, to the other side, in chunks of at most 1024
bytes, symmetrically in both directions. -/
theorem claim_C1_relay_round_trip (i : HandleInput) (ho : i.openRes = .opened)
    (hfree : ∀ e ∈ i.events, e.errFree) (hbnd : ∀ e ∈ i.events, e.boundedReads) :
    (JupyterScc.handle i).sentChan.flatten = (JupyterScc.handle i).readLocal.flatten ∧
    (JupyterScc.handle i).sentLocal.flatten = (JupyterScc.handle i).readChan.flatten ∧
    (∀ c ∈ (JupyterScc.handle i).sentChan, c.length ≤ 1024) ∧
    (∀ c ∈ (JupyterScc.handle i).sentLocal, c.length ≤ 1024) := by
  have hj := JupyterScc.relayLoop_joinInv i.events RelayState.init hfree
    (by simp [joinInv, RelayState.init])
  have hb := JupyterScc.relayLoop_sentBound i.events RelayState.init hbnd
    (by simp [sentBound, RelayState.init])
  cases hr : JupyterScc.relayLoop i.events RelayState.init with
  | mk st ex =>
    rw [hr] at hj hb
    cases ex <;> simp [JupyterScc.handle, ho, hr] <;>
      exact ⟨hj.1, hj.2, hb.1, hb.2⟩

/-- Witness for C1 at a concrete established relay transferring `[10, 20]`
locally-to-remote and `[30]` remotely-to-local before a local EOF. -/
theorem claim_C1_witness :
    (JupyterScc.handle iRelayEx).sentChan.flatten =
      (JupyterScc.handle iRelayEx).readLocal.flatten ∧
    (JupyterScc.handle iRelayEx).sentLocal.flatten =
      (JupyterScc.handle iRelayEx).readChan.flatten ∧
    (∀ c ∈ (JupyterScc.handle iRelayEx).sentChan, c.length ≤ 1024) ∧
    (∀ c ∈ (JupyterScc.handle iRelayEx).sentLocal, c.length ≤ 1024) :=
  claim_C1_relay_round_trip iRelayEx rfl (by decide) (by decide)

/-- Claim C2 as stated is false: when a `recv` raises inside the relay loop
of `Handler.handle`, the exception propagates (`relayRaised`) and NEITHER
the SSH channel nor the local socket is closed by `handle` — the `while`
loop is not wrapped in `try`, so the `close()` calls after it are
skipped. -/
theorem claim_C2_counterexample :
    (JupyterScc.handle iReadErrEx).exit = .relayRaised ∧
    (JupyterScc.handle iReadErrEx).chanCloses = 0 ∧
    (JupyterScc.handle iReadErrEx).localCloses = 0 := by
  decide

/-- Claim C2, amended: on the normal EOF exit path `Handler.handle` closes
both streams exactly once and logs the tunnel-closed event; but on a
read/write error the exception escapes `handle`, which then closes neither
stream and logs nothing beyond the tunnel-open message. -/
theorem claim_C2_close_behavior (i : HandleInput) (ho : i.openRes = .opened) :
    ((JupyterScc.handle i).exit = .relayEof →
      (JupyterScc.handle i).chanCloses = 1 ∧
      (JupyterScc.handle i).localCloses = 1 ∧
      closedLog i.peer ∈ (JupyterScc.handle i).logs) ∧
    ((JupyterScc.handle i).exit = .relayRaised →
      (JupyterScc.handle i).chanCloses = 0 ∧
      (JupyterScc.handle i).localCloses = 0 ∧
      (JupyterScc.handle i).logs =
        [connectedLog i.peer i.chanPeer i.chainHost i.chainPort]) := by
  cases hr : JupyterScc.relayLoop i.events RelayState.init with
  | mk st ex =>
    cases ex <;> simp [JupyterScc.handle, ho, hr]

/-- Witness for the amended C2 at a concrete relay ending in local EOF. -/
theorem claim_C2_witness :
    (JupyterScc.handle iLocalEofEx).chanCloses = 1 ∧
    (JupyterScc.handle iLocalEofEx).localCloses = 1 ∧
    closedLog iLocalEofEx.peer ∈ (JupyterScc.handle iLocalEofEx).logs :=
  (claim_C2_close_behavior iLocalEofEx rfl).1 (by decide)

/-- Claim C3 as stated is false: when `open_channel` raises,
`Handler.handle` logs only the target address and the exception text — the
local peer address (`10.0.0.5:50000` here) does not occur in the message —
and `handle` itself closes nothing (the local socket is left to the
enclosing server machinery). -/
theorem claim_C3_counterexample :
    (JupyterScc.handle iOpenFailEx).logs =
      [openFailLog "localhost" 8888 "SSHException"] ∧
    strContains (addrRepr iOpenFailEx.peer)
      (openFailLog "localhost" 8888 "SSHException") = false ∧
    (JupyterScc.handle iOpenFailEx).localCloses = 0 := by
  decide

/-- Claim C3, amended: when `open_channel` raises or returns `None`,
`Handler.handle` logs the failure with the target address (the log message
does not depend on the local peer address), closes nothing itself, and
returns without raising; the server processes every connection
independently, so subsequent connections are still served. -/
theorem claim_C3_open_failure (host : String) (port : Nat) (msg : String)
    (p1 p2 cp : Addr) (evs : List RelayEvent) (conns : List HandleInput) :
    (JupyterScc.handle ⟨host, port, p1, cp, .raises msg, evs⟩).logs =
      [openFailLog host port msg] ∧
    (JupyterScc.handle ⟨host, port, p1, cp, .raises msg, evs⟩).logs =
      (JupyterScc.handle ⟨host, port, p2, cp, .raises msg, evs⟩).logs ∧
    (JupyterScc.handle ⟨host, port, p1, cp, .raises msg, evs⟩).localCloses = 0 ∧
    (JupyterScc.handle ⟨host, port, p1, cp, .raises msg, evs⟩).chanCloses = 0 ∧
    (JupyterScc.handle ⟨host, port, p1, cp, .raises msg, evs⟩).exit = .openFailed ∧
    (JupyterScc.handle ⟨host, port, p1, cp, .rejected, evs⟩).logs =
      [rejectLog host port] ∧
    (JupyterScc.handle ⟨host, port, p1, cp, .rejected, evs⟩).logs =
      (JupyterScc.handle ⟨host, port, p2, cp, .rejected, evs⟩).logs ∧
    (JupyterScc.handle ⟨host, port, p1, cp, .rejected, evs⟩).localCloses = 0 ∧
    (JupyterScc.handle ⟨host, port, p1, cp, .rejected, evs⟩).exit = .rejectedByServer ∧
    (serveConnections ForwardServer conns).length = conns.length := by
  refine ⟨rfl, rfl, rfl, rfl, rfl, rfl, rfl, rfl, rfl, ?_⟩
  simp [serveConnections]

/-- Claim C4: whenever the relay loop of `Handler.handle` observes a
zero-byte read on either stream, it terminates as a graceful EOF: the loop
exits via `break`, both the SSH channel and the local socket are closed, and
`handle` returns without raising. -/
theorem claim_C4_zero_read_graceful_eof (i : HandleInput)
    (ho : i.openRes = .opened)
    (hread : [] ∈ (JupyterScc.handle i).readLocal ∨
      [] ∈ (JupyterScc.handle i).readChan) :
    (JupyterScc.handle i).exit = .relayEof ∧
    (JupyterScc.handle i).chanCloses = 1 ∧
    (JupyterScc.handle i).localCloses = 1 := by
  cases hr : JupyterScc.relayLoop i.events RelayState.init with
  | mk st ex =>
    have hinit : noEmptyRead RelayState.init := by
      simp [noEmptyRead, RelayState.init]
    cases ex with
    | eof => simp [JupyterScc.handle, ho, hr]
    | raised =>
      exfalso
      have hne := JupyterScc.relayLoop_noEmpty i.events RelayState.init hinit
        (by rw [hr]; simp)
      rw [hr] at hne
      simp [JupyterScc.handle, ho, hr] at hread
      rcases hread with h | h
      · exact hne.1 h
      · exact hne.2 h
    | pending =>
      exfalso
      have hne := JupyterScc.relayLoop_noEmpty i.events RelayState.init hinit
        (by rw [hr]; simp)
      rw [hr] at hne
      simp [JupyterScc.handle, ho, hr] at hread
      rcases hread with h | h
      · exact hne.1 h
      · exact hne.2 h

/-- Witness for C4 at a concrete relay whose SSH channel returns a
zero-byte read after one transfer. -/
theorem claim_C4_witness :
    (JupyterScc.handle iChanEofEx).exit = .relayEof ∧
    (JupyterScc.handle iChanEofEx).chanCloses = 1 ∧
    (JupyterScc.handle iChanEofEx).localCloses = 1 :=
  claim_C4_zero_read_graceful_eof iChanEofEx rfl (by decide)

lemma dash_localPhase_eq (e : RelayEvent) (st : RelayState) :
    JupyterSccDash.localPhase e st = JupyterScc.localPhase e st := by
  cases hl : e.localRead with
  | none => simp [JupyterSccDash.localPhase, JupyterScc.localPhase, hl]
  | some rr =>
    cases rr with
    | err => simp [JupyterSccDash.localPhase, JupyterScc.localPhase, hl]
    | ok c => simp [JupyterSccDash.localPhase, JupyterScc.localPhase, hl]

lemma dash_chanPhase_eq (e : RelayEvent) (st : RelayState) :
    JupyterSccDash.chanPhase e st = JupyterScc.chanPhase e st := by
  cases hl : e.chanRead with
  | none => simp [JupyterSccDash.chanPhase, JupyterScc.chanPhase, hl]
  | some rr =>
    cases rr with
    | err => simp [JupyterSccDash.chanPhase, JupyterScc.chanPhase, hl]
    | ok c => simp [JupyterSccDash.chanPhase, JupyterScc.chanPhase, hl]

lemma dash_relayLoop_eq :
    ∀ (evs : List RelayEvent) (st : RelayState),
      JupyterSccDash.relayLoop evs st = JupyterScc.relayLoop evs st := by
  intro evs
  induction evs with
  | nil => intro st; rfl
  | cons e rest ih =>
    intro st
    simp only [JupyterSccDash.relayLoop, JupyterScc.relayLoop,
      dash_localPhase_eq, dash_chanPhase_eq]
    cases JupyterScc.localPhase e st with
    | done st2 ex => rfl
    | cont st1 =>
      dsimp only
      cases JupyterScc.chanPhase e st1 with
      | done st2 ex => rfl
      | cont st2 => dsimp only; exact ih st2

/-- Claim C7: the two near-duplicate copies of the connection-handler and
relay logic are equivalent — for every input, `Handler.handle` transcribed
from `jupyter-scc.py` produces exactly the same logs, relay I/O, closes and
exit as `Handler.handle` transcribed from `jupyter_scc.py`. -/
theorem claim_C7_handler_copies_equivalent (i : HandleInput) :
    JupyterSccDash.handle i = JupyterScc.handle i := by
  cases ho : i.openRes with
  | raises msg => simp [JupyterSccDash.handle, JupyterScc.handle, ho]
  | rejected => simp [JupyterSccDash.handle, JupyterScc.handle, ho]
  | opened =>
    simp only [JupyterSccDash.handle, JupyterScc.handle, ho, dash_relayLoop_eq]

/-- Claim C5 as stated is false: in `main`'s interrupt teardown the tunnel
thread is joined AFTER `client.close()` — the join does not happen before
the Transport is closed. -/
theorem claim_C5_counterexample :
    ¬ (opIndex .threadJoin mainInterruptSequence <
        opIndex .clientClose mainInterruptSequence) := by
  decide

/-- Claim C5, amended: the teardown order of `main` on KeyboardInterrupt is
`tunnel.shutdown()`, then `client.close()` (closing the Transport), then
`thread.join()`, then `sys.exit(0)` — so the Transport is closed after the
shutdown request but before the serving thread is joined. -/
theorem claim_C5_teardown_order :
    opIndex .tunnelShutdown mainInterruptSequence <
      opIndex .clientClose mainInterruptSequence ∧
    opIndex .clientClose mainInterruptSequence <
      opIndex .threadJoin mainInterruptSequence ∧
    opIndex .threadJoin mainInterruptSequence <
      opIndex (.sysExit 0) mainInterruptSequence := by
  decide

/-- Claim C6 as stated is false for the repository as a whole: the
`forward_tunnel` of `jupyter-scc.py` does not return a server handle — it
calls `serve_forever()` directly and blocks. -/
theorem claim_C6_counterexample :
    (forward_tunnel_dash 11111 "localhost" 8888 0).returnsHandle = false := by
  decide

/-- Claim C6, amended: in `jupyter_scc.py`, `forward_tunnel` constructs the
`ForwardServer` bound to `("", local_port)` with the given chain host, chain
port and transport and returns it without serving, and `main` then creates
and starts a thread whose target is the tunnel's `serve_forever`; in
`jupyter-scc.py`, `forward_tunnel` instead blocks in `serve_forever()` and
never returns a handle. -/
theorem claim_C6_tunnel_start (lp : Nat) (rh : String) (rp : Nat) (t : Nat) :
    forward_tunnel lp rh rp t =
      .returnsServer ⟨"", lp, rh, rp, t, ForwardServer⟩ ∧
    (forward_tunnel lp rh rp t).returnsHandle = true ∧
    forward_tunnel_dash lp rh rp t =
      .blocksInServeForever ⟨"", lp, rh, rp, t, ForwardServerDash⟩ ∧
    (forward_tunnel_dash lp rh rp t).returnsHandle = false ∧
    (mainStartSequence rp)[0]? = some (.forwardTunnelCall 11111 "localhost" rp) ∧
    (mainStartSequence rp)[1]? = some .threadCreateServeForever ∧
    (mainStartSequence rp)[2]? = some .threadStart :=
  ⟨rfl, rfl, rfl, rfl, rfl, rfl, rfl⟩

/-- Claim C8: `ForwardServer` sets `daemon_threads` (every dispatched
per-connection worker is a daemon thread that does not block process
shutdown and whose failure does not prevent later connections from being
served) and `allow_reuse_address` (the listening socket has address reuse
enabled), in both copies of the file. -/
theorem claim_C8_server_flags_and_dispatch :
    ForwardServer.daemon_threads = true ∧
    listeningSocketReuseEnabled ForwardServer = true ∧
    ForwardServerDash.daemon_threads = true ∧
    listeningSocketReuseEnabled ForwardServerDash = true ∧
    ∀ conns : List HandleInput,
      ((serveConnections ForwardServer conns).all fun w => w.daemon) = true ∧
      (serveConnections ForwardServer conns).length = conns.length := by
  refine ⟨rfl, rfl, rfl, rfl, fun conns => ⟨?_, by simp [serveConnections]⟩⟩
  simp [serveConnections, ForwardServer]

lemma strAppend_left_cancel {s t u : String} (h : s ++ t = s ++ u) : t = u := by
  have h2 := congrArg String.data h
  simp only [String.data_append] at h2
  exact String.ext (List.append_cancel_left h2)

/-- Claim C9: the `found jupyter server info` log line of `main` formats
the port capture group for BOTH the port field and the token field, so
whenever the token differs from the port text the logged line differs from
the line that would carry the actual token. -/
theorem claim_C9_duplicated_token_group (m : MatchGroups) :
    mainFoundInfoLog m = foundInfoTemplate m.g2 m.g2 ∧
    (m.g3.getD "" ≠ m.g2 →
      mainFoundInfoLog m ≠ foundInfoTemplate m.g2 (m.g3.getD "")) := by
  refine ⟨rfl, fun hne hEq => hne ?_⟩
  simp only [mainFoundInfoLog, foundInfoTemplate] at hEq
  exact (strAppend_left_cancel hEq).symm

/-- Witness for C9 at a match whose token group is `"abc"` and whose port
group is `"8888"`: the logged line is not the line carrying the token. -/
theorem claim_C9_witness :
    mainFoundInfoLog ⟨none, "8888", some "abc"⟩ ≠
      foundInfoTemplate "8888" "abc" :=
  (claim_C9_duplicated_token_group ⟨none, "8888", some "abc"⟩).2 (by decide)

/-- Claim C10: `Config.__setitem__` first updates the in-memory mapping,
then writes the whole mapping to the temporary file and renames it over the
settings path in a single step, so every intermediate state shows the
settings file holding either the old full mapping or the new full mapping;
on success the settings file holds the new full mapping; if the dump or the
rename fails the exception is logged and re-raised while the in-memory
mapping keeps the new value. -/
theorem claim_C10_config_setitem (st : ConfigState) (k : String) (v : CVal)
    (w : FsMode) :
    (∀ s ∈ (configSetItem st k v w).trace, s.mem = dictInsert k v st.mem) ∧
    (∀ s ∈ (configSetItem st k v w).trace,
      s.diskMain = st.diskMain ∨ s.diskMain = some (dictInsert k v st.mem)) ∧
    (w = .ok →
      (configSetItem st k v w).raised = false ∧
      (configSetItem st k v w).final.diskMain = some (dictInsert k v st.mem) ∧
      (configSetItem st k v w).final.diskTemp = none ∧
      (configSetItem st k v w).logs = []) ∧
    (w ≠ .ok →
      (configSetItem st k v w).raised = true ∧
      (configSetItem st k v w).logs = [configWriteErrLog] ∧
      (configSetItem st k v w).final.mem = dictInsert k v st.mem) := by
  cases w <;> simp [configSetItem]

/-- Witness for C10: a successful set writes the full new mapping to disk,
and a failing rename re-raises while memory keeps the new value. -/
theorem claim_C10_witness :
    (configSetItem cfgEx "Setup_on_SCC" (CVal.b true) FsMode.ok).final.diskMain =
      some (dictInsert "Setup_on_SCC" (CVal.b true) cfgEx.mem) ∧
    (configSetItem cfgEx "Setup_on_SCC" (CVal.b true) FsMode.renameFails).raised = true ∧
    (configSetItem cfgEx "Setup_on_SCC" (CVal.b true) FsMode.renameFails).final.mem =
      dictInsert "Setup_on_SCC" (CVal.b true) cfgEx.mem :=
  ⟨((claim_C10_config_setitem cfgEx "Setup_on_SCC" (CVal.b true) FsMode.ok).2.2.1 rfl).2.1,
   ((claim_C10_config_setitem cfgEx "Setup_on_SCC" (CVal.b true) FsMode.renameFails).2.2.2
      (by decide)).1,
   ((claim_C10_config_setitem cfgEx "Setup_on_SCC" (CVal.b true) FsMode.renameFails).2.2.2
      (by decide)).2.2⟩
